import Mathlib

/-!
Shallow embedding of the squads smart-pointer core:
`include/core/linked_ptr.hpp` (basic_linked_ptr, a shared pointer whose
aliasing handles form a circular doubly linked list) and
`include/core/auto_ptr.hpp` (basic_auto_ptr, an intrusive reference-counted
pointer).  C++ object addresses for handles/nodes are `Nat` indices into a
state map; owned addresses are `Option Nat` with `none` as the null pointer.
Each operation is translated statement by statement from the source.
-/

/-- A node of the circular list (struct basic_linked_ptr_node, plus the
m_pValue member of basic_linked_ptr): `Prev`/`Next` sibling links and the
owned address `value` (`none` = null).  A node's identity (the C++ `this`
address) is the `Nat` index under which the state stores it. -/
structure LNode where
  Prev : Nat
  Next : Nat
  value : Option Nat
deriving DecidableEq

/-- State of a program using basic_linked_ptr: the node map (an index never
constructed is kept as its own singleton with a null value, which is exactly
what the default constructor produces), and the log of `delete` calls on
non-null owned addresses (`delete` of null is a no-op and is not logged). -/
structure LState where
  nodes : Nat → LNode
  deletions : List Nat

/-- The empty state: every potential node is a null singleton, nothing
deleted yet. -/
def LState.init : LState := ⟨fun i => ⟨i, i, none⟩, []⟩

/-- Overwrite one node of the state. -/
def LState.setNode (s : LState) (i : Nat) (n : LNode) : LState :=
  ⟨fun j => if j = i then n else s.nodes j, s.deletions⟩

/-- basic_linked_ptr(pointer) (linked_ptr.hpp:58-65, also the default
constructor with `v = none`): `Prev = Next = this`, `m_pValue = pValue`. -/
def LState.construct (s : LState) (id : Nat) (v : Option Nat) : LState :=
  s.setNode id ⟨id, id, v⟩

/-- basic_linked_ptr::link (linked_ptr.hpp:173-179), invoked on a node `id`
with source node `src`, statement by statement:
  `Next = pOther.mpNext;` — reads the source's Next sibling link (the source
  text says `mpNext`; `Next` is the only sibling-link member it can denote);
  `Prev = this; Prev = const_cast<...>(&pOther);` — two successive writes to
  our own Prev, net effect `Prev = src`;
  `pOther.Next = this;`.
The node that followed `src` keeps its old Prev: the source contains no
write through the new `Next`. -/
def LState.link (s : LState) (id src : Nat) : LState :=
  let srcNext := (s.nodes src).Next
  let s1 := s.setNode id ⟨src, srcNext, (s.nodes id).value⟩
  s1.setNode src ⟨(s1.nodes src).Prev, id, (s1.nodes src).value⟩

/-- basic_linked_ptr copy constructor (linked_ptr.hpp:67-70): the new node
`id` takes the source's m_pValue; if non-null it links into the source's
cycle, otherwise `Prev = Next = this`. -/
def LState.copyConstruct (s : LState) (id src : Nat) : LState :=
  match (s.nodes src).value with
  | some a => (s.setNode id ⟨(s.nodes id).Prev, (s.nodes id).Next, some a⟩).link id src
  | none => s.setNode id ⟨id, id, none⟩

/-- basic_linked_ptr::reset(U*) (linked_ptr.hpp:143-156).  If the new value
equals the current one nothing happens.  Otherwise, if unique
(`Next == this`): `delete m_pValue` (logged when non-null), links untouched;
else unlink: `Prev->Next = Next; Next->Prev = Prev; Prev = Next = this`.
Finally `m_pValue = pValue`. -/
def LState.reset (s : LState) (id : Nat) (pv : Option Nat) : LState :=
  let n := s.nodes id
  if pv = n.value then s
  else if n.Next = id then
    let s1 : LState :=
      ⟨s.nodes, match n.value with
                | some a => s.deletions ++ [a]
                | none => s.deletions⟩
    s1.setNode id ⟨n.Prev, n.Next, pv⟩
  else
    let s1 := s.setNode n.Prev ⟨(s.nodes n.Prev).Prev, n.Next, (s.nodes n.Prev).value⟩
    let s2 := s1.setNode n.Next ⟨n.Prev, (s1.nodes n.Next).Next, (s1.nodes n.Next).value⟩
    s2.setNode id ⟨id, id, pv⟩

/-- ~basic_linked_ptr (linked_ptr.hpp:78): `reset()`, i.e. reset(nullptr). -/
def LState.destruct (s : LState) (id : Nat) : LState :=
  s.reset id none

/-- basic_linked_ptr::operator= (linked_ptr.hpp:129-136): when the source's
m_pValue differs from ours, `reset(_pPtr.m_pValue)` and then, when non-null,
`link(_pPtr)`.  Equal addresses (including self-assignment) do nothing. -/
def LState.assign (s : LState) (dst src : Nat) : LState :=
  let srcV := (s.nodes src).value
  if srcV = (s.nodes dst).value then s
  else
    let s1 := s.reset dst srcV
    match srcV with
    | some _ => s1.link dst src
    | none => s1

/-- The loop of basic_linked_ptr::count, walking `Next` from `cur` until it
returns to `start`.  The source loop has no termination guard; `fuel` bounds
the walk here and `none` reports a walk that does not close in time. -/
def LState.countAux (s : LState) (fuel cur start acc : Nat) : Option Nat :=
  match fuel with
  | 0 => none
  | fuel + 1 =>
    if (s.nodes cur).Next = start then some acc
    else s.countAux fuel ((s.nodes cur).Next) start (acc + 1)

/-- basic_linked_ptr::count (linked_ptr.hpp:92-102): starts at 1 and adds one
per node visited before `Next` returns to `this`. -/
def LState.count (s : LState) (fuel id : Nat) : Option Nat :=
  s.countAux fuel id id 1

/-- basic_linked_ptr::unique (linked_ptr.hpp:127): `Next == this`. -/
def LState.unique (s : LState) (id : Nat) : Bool :=
  (s.nodes id).Next == id

/-- The doubly-linked-cycle invariant at node `n`: `n.Next.Prev == n` and
`n.Prev.Next == n`. -/
def LState.linkInv (s : LState) (n : Nat) : Bool :=
  ((s.nodes (s.nodes n).Next).Prev == n) && ((s.nodes (s.nodes n).Prev).Next == n)

/-- The do-while of basic_linked_ptr::detach: remember `p->Next`, null the
visited node's value and make it a singleton, continue until the walk comes
back to `start`.  `fuel` bounds the do-while; `none` reports a walk that does
not return. -/
def LState.detachLoop (s : LState) (fuel p start : Nat) : Option LState :=
  match fuel with
  | 0 => none
  | fuel + 1 =>
    let pNext := (s.nodes p).Next
    let s1 := s.setNode p ⟨p, p, none⟩
    if pNext = start then some s1 else s1.detachLoop fuel pNext start

/-- basic_linked_ptr::detach (linked_ptr.hpp:104-118): remember m_pValue,
walk the whole cycle nulling every member, return the remembered value. -/
def LState.detach (s : LState) (fuel id : Nat) : Option (Option Nat × LState) :=
  (s.detachLoop fuel id id).map (fun st => ((s.nodes id).value, st))

/-- Runtime type tags used to model `dynamic_cast` inside dycast: a minimal
class hierarchy with `derived` inheriting from `base` and `other`
unrelated. -/
inductive CType
  | base
  | derived
  | other
deriving DecidableEq

/-- `dynamic_cast<TO*>` on a pointee of runtime type `rt` succeeds iff `rt`
is `to` itself or a class derived from it. -/
def CType.castsTo : CType → CType → Bool
  | .base, .base => true
  | .derived, .derived => true
  | .derived, .base => true
  | .other, .other => true
  | _, _ => false

/-- Modelled from the spec: the pointee capability basic_auto_ptr requires is
declared only by its callers in src/; per spec section 3, `duplicate()`
increments an internally stored count and `release()` decrements it and
destroys the object when the count reaches zero.  `dupCalls`/`relCalls`
instrument how often each capability method was invoked; `ty` is the runtime
type used by dynamic_cast. -/
structure Pointee where
  rc : Nat
  alive : Bool
  ty : CType
  dupCalls : Nat
  relCalls : Nat
deriving DecidableEq

/-- State of a program using basic_auto_ptr: the pointee heap, and the
m_ptr of every handle (indexed by the handle object's identity; `none` is a
null m_ptr or a handle not in use). -/
structure AState where
  heap : Nat → Pointee
  handles : Nat → Option Nat

/-- The empty state: no live pointee, every handle null. -/
def AState.init : AState := ⟨fun _ => ⟨0, false, CType.other, 0, 0⟩, fun _ => none⟩

/-- Overwrite one pointee of the heap. -/
def AState.setHeap (s : AState) (a : Nat) (p : Pointee) : AState :=
  ⟨fun b => if b = a then p else s.heap b, s.handles⟩

/-- Overwrite one handle's m_ptr. -/
def AState.setHandle (s : AState) (h : Nat) (v : Option Nat) : AState :=
  ⟨s.heap, fun g => if g = h then v else s.handles g⟩

/-- Modelled from the spec: `duplicate()` at address `a`. -/
def AState.dup (s : AState) (a : Nat) : AState :=
  let p := s.heap a
  s.setHeap a ⟨p.rc + 1, p.alive, p.ty, p.dupCalls + 1, p.relCalls⟩

/-- Modelled from the spec: `release()` at address `a`; destroys the object
when the count reaches zero. -/
def AState.rel (s : AState) (a : Nat) : AState :=
  let p := s.heap a
  s.setHeap a ⟨p.rc - 1, if p.rc - 1 = 0 then false else p.alive, p.ty, p.dupCalls, p.relCalls + 1⟩

/-- `if (m_ptr) m_ptr->release();` applied to an m_ptr value. -/
def AState.relIf (s : AState) (v : Option Nat) : AState :=
  match v with
  | some a => s.rel a
  | none => s

/-- `if (m_ptr) m_ptr->duplicate();` applied to an m_ptr value. -/
def AState.dupIf (s : AState) (v : Option Nat) : AState :=
  match v with
  | some a => s.dup a
  | none => s

/-- basic_auto_ptr(pointer) (auto_ptr.hpp:45-46): stores the pointer; no
duplicate call.  Also the default constructor with `p = none`. -/
def AState.construct (s : AState) (h : Nat) (p : Option Nat) : AState :=
  s.setHandle h p

/-- basic_auto_ptr(pointer, bool shared) (auto_ptr.hpp:47-48): stores the
pointer; the body never reads the `shared` flag. -/
def AState.constructShared (s : AState) (h : Nat) (p : Option Nat) (shared : Bool) : AState :=
  s.setHandle h p

/-- basic_auto_ptr(const self_type&) (auto_ptr.hpp:49-50): copies the
source's m_ptr; the body contains no duplicate call. -/
def AState.copyConstruct (s : AState) (h src : Nat) : AState :=
  s.setHandle h (s.handles src)

/-- Converting constructor basic_auto_ptr(const basic_auto_ptr<TO>&)
(auto_ptr.hpp:54-56): adopts the source's address and duplicates it when
non-null. -/
def AState.convConstruct (s : AState) (h src : Nat) : AState :=
  let v := s.handles src
  (s.setHandle h v).dupIf v

/-- ~basic_auto_ptr (auto_ptr.hpp:58): `if (m_ptr) m_ptr->release();`.  The
handle slot is cleared afterwards to record that the handle is gone. -/
def AState.destruct (s : AState) (h : Nat) : AState :=
  (s.relIf (s.handles h)).setHandle h none

/-- assign(pointer) (auto_ptr.hpp:143-149): `if (m_ptr != other)` release the
current address (when non-null) and adopt `other`. -/
def AState.assignPtr (s : AState) (h : Nat) (p : Option Nat) : AState :=
  if s.handles h = p then s
  else (s.relIf (s.handles h)).setHandle h p

/-- assign(pointer, bool shared) (auto_ptr.hpp:151-159), used by
reset(pointer, bool): like assign(pointer) but additionally duplicates the
new address when `shared` and non-null. -/
def AState.assignPtrShared (s : AState) (h : Nat) (p : Option Nat) (shared : Bool) : AState :=
  if s.handles h = p then s
  else
    let s1 := (s.relIf (s.handles h)).setHandle h p
    if shared then s1.dupIf p else s1

/-- assign(const self_type&) (auto_ptr.hpp:161-169): the guard compares the
handle OBJECT identities (`&other != this`), not the held addresses; when the
objects differ it releases the current address, adopts the source's m_ptr and
duplicates it when non-null. -/
def AState.assignSelf (s : AState) (dst src : Nat) : AState :=
  if dst = src then s
  else
    let v := s.handles src
    ((s.relIf (s.handles dst)).setHandle dst v).dupIf v

/-- operator=(self_type&&) (auto_ptr.hpp:84-89), statement by statement with
no identity check: `if (m_ptr) m_ptr->release(); m_ptr = other.m_ptr;
other.m_ptr = nullptr;` — reads and writes in source order, so `dst = src`
is meaningful. -/
def AState.moveAssign (s : AState) (dst src : Nat) : AState :=
  let s1 := s.relIf (s.handles dst)
  let s2 := s1.setHandle dst (s1.handles src)
  s2.setHandle src none

/-- dycast<TO> (auto_ptr.hpp:128-134): `dynamic_cast<TO*>(m_ptr)` (null stays
null, a non-null address survives iff its runtime type casts to `to`), then
the result handle `h` is built with `basic_auto_ptr(pOther, true)`. -/
def AState.dycast (s : AState) (h src : Nat) (tgt : CType) : AState :=
  let pOther : Option Nat :=
    match s.handles src with
    | none => none
    | some a => if (s.heap a).ty.castsTo tgt then some a else none
  s.constructShared h pOther true

/-- Two-handle scenario for basic_linked_ptr: node 0 constructed from a
fresh non-null address `a`, node 1 copy-constructed from node 0. -/
def lPair (a : Nat) : LState :=
  (LState.init.construct 0 (some a)).copyConstruct 1 0

/-- Three-handle chain: node 1 copy-constructed from node 0, node 2
copy-constructed from node 1. -/
def lTripleChain (a : Nat) : LState :=
  ((LState.init.construct 0 (some a)).copyConstruct 1 0).copyConstruct 2 1

/-- Three-handle star: nodes 1 and 2 both copy-constructed from node 0. -/
def lTripleStar (a : Nat) : LState :=
  ((LState.init.construct 0 (some a)).copyConstruct 1 0).copyConstruct 2 0

/-- One pointee of dynamic type `base`, count 1, held by handle 0. -/
def aOne : AState :=
  (AState.init.setHeap 5 ⟨1, true, CType.base, 0, 0⟩).setHandle 0 (some 5)

/-- One pointee of dynamic type `derived`, count 1, held by handle 0. -/
def aDerived : AState :=
  (AState.init.setHeap 5 ⟨1, true, CType.derived, 0, 0⟩).setHandle 0 (some 5)

/-- One pointee with count 2, held by the two distinct handles 0 and 1. -/
def aTwo : AState :=
  ((AState.init.setHeap 5 ⟨2, true, CType.base, 0, 0⟩).setHandle 0 (some 5)).setHandle 1 (some 5)


/-! Helper lemmas about the state updaters. -/

@[simp] theorem LState.setNode_nodes (s : LState) (i : Nat) (n : LNode) (j : Nat) :
    (s.setNode i n).nodes j = if j = i then n else s.nodes j := rfl

@[simp] theorem LState.setNode_deletions (s : LState) (i : Nat) (n : LNode) :
    (s.setNode i n).deletions = s.deletions := rfl

@[simp] theorem AState.setHeap_heap (s : AState) (a : Nat) (p : Pointee) (b : Nat) :
    (s.setHeap a p).heap b = if b = a then p else s.heap b := rfl

@[simp] theorem AState.setHeap_handles (s : AState) (a : Nat) (p : Pointee) :
    (s.setHeap a p).handles = s.handles := rfl

@[simp] theorem AState.setHandle_handles (s : AState) (h : Nat) (v : Option Nat) (g : Nat) :
    (s.setHandle h v).handles g = if g = h then v else s.handles g := rfl

@[simp] theorem AState.setHandle_heap (s : AState) (h : Nat) (v : Option Nat) :
    (s.setHandle h v).heap = s.heap := rfl

/-- The count loop never reports fewer nodes than its accumulator. -/
theorem LState.countAux_acc_le (s : LState) :
    ∀ fuel cur start acc k, s.countAux fuel cur start acc = some k → acc ≤ k := by
  intro fuel
  induction fuel with
  | zero => intro cur start acc k h; simp [LState.countAux] at h
  | succ f ih =>
    intro cur start acc k h
    rw [LState.countAux] at h
    by_cases hn : (s.nodes cur).Next = start
    · simp [hn] at h; omega
    · simp [hn] at h
      have := ih ((s.nodes cur).Next) start (acc + 1) k h
      omega

/-! Claim theorems. -/

/-- Claim C1 counterexample: two handles share address 100 (node 1
copy-constructed from node 0); destroying the source node 0 first and then
node 1 destroys every handle sharing the value, yet the owned object is
never deleted: unlinking node 0 writes through its own stale Prev (link
never made node 0's Prev point to node 1), so node 1 is left non-unique and
skips the delete. -/
theorem C1_cex_source_first_leak :
    ((((lPair 100).destruct 0).destruct 1).deletions = []) ∧
    (((((lPair 100).destruct 0).destruct 1).nodes 0).value = none) ∧
    (((((lPair 100).destruct 0).destruct 1).nodes 1).value = none) := by
  decide

/-- Claim C1 (amended): the owned object is deleted exactly once, at the
destruction of the last handle, when the copy is destroyed before the handle
it was copied from; destroying the source handle first leaves the object
undeleted forever (both handles end up destroyed with no deletion). Stated
for any state containing the two-node configuration that copy-construction
from a singleton produces. -/
theorem C1_amended_lifo_delete_once (s : LState) (p q a : Nat) (hpq : p ≠ q)
    (hp : s.nodes p = ⟨p, q, some a⟩) (hq : s.nodes q = ⟨p, p, some a⟩) :
    ((s.destruct q).deletions = s.deletions ∧
      ((s.destruct q).destruct p).deletions = s.deletions ++ [a]) ∧
    ((s.destruct p).destruct q).deletions = s.deletions := by
  have hqp : q ≠ p := hpq.symm
  refine ⟨⟨?_, ?_⟩, ?_⟩
  · simp [LState.destruct, LState.reset, hp, hq, hpq, hqp]
  · simp [LState.destruct, LState.reset, hp, hq, hpq, hqp]
  · simp [LState.destruct, LState.reset, hp, hq, hpq, hqp]

/-- Claim C1 witness: the amended theorem applied to the concrete two-handle
state with address 100. -/
theorem C1_amended_lifo_delete_once_w :
    (((lPair 100).destruct 1).deletions = (lPair 100).deletions ∧
      (((lPair 100).destruct 1).destruct 0).deletions = (lPair 100).deletions ++ [100]) ∧
    (((lPair 100).destruct 0).destruct 1).deletions = (lPair 100).deletions :=
  C1_amended_lifo_delete_once (lPair 100) 0 1 100 (by decide) (by decide) (by decide)

/-- Claim C2 counterexample: already after a single copy-construction (node 1
copied from node 0, address 100) the doubly-linked-cycle invariant fails:
node 0's Prev still points to node 0 itself although node 1's Next points to
node 0, so `n.Prev.Next = n` is violated at n = node 0.  link() updates only
one direction of the sibling links. -/
theorem C2_cex_invariant_fails_after_copy :
    ((lPair 100).linkInv 0 = false) ∧
    (((lPair 100).nodes 0).Prev = 0) ∧
    (((lPair 100).nodes 1).Next = 0) := by
  decide

/-- Claim C2 (amended): after construction and copy-construction the Next
links alone do form a cycle visiting exactly the live handles aliasing the
address (each of the three members of a copy-built 3-cycle sees count() = 3
and the same value), but the Prev direction is not maintained: the
two-sided invariant `n.Next.Prev = n ∧ n.Prev.Next = n` already fails in
such a cycle, because link() never updates the Prev of the node following
the insertion point. -/
theorem C2_amended_next_cycle_correct (a : Nat) :
    (((lTripleChain a).nodes 0).Next = 1 ∧ ((lTripleChain a).nodes 1).Next = 2 ∧
      ((lTripleChain a).nodes 2).Next = 0) ∧
    ((lTripleChain a).count 5 0 = some 3 ∧ (lTripleChain a).count 5 1 = some 3 ∧
      (lTripleChain a).count 5 2 = some 3) ∧
    (((lTripleChain a).nodes 0).value = some a ∧ ((lTripleChain a).nodes 1).value = some a ∧
      ((lTripleChain a).nodes 2).value = some a) ∧
    (lTripleChain a).linkInv 0 = false :=
  ⟨⟨rfl, rfl, rfl⟩, ⟨rfl, rfl, rfl⟩, ⟨rfl, rfl, rfl⟩, rfl⟩

/-- Claim C6: for a singleton handle (node 0) owning a non-null address,
copy-constructing node 1 from it makes count() = 2 and unique() = false on
both; destroying the copy restores count() = 1 and unique() = true on node 0,
keeps its value, and deletes nothing. -/
theorem C6_copy_then_destroy_copy (a : Nat) :
    ((lPair a).count 5 0 = some 2 ∧ (lPair a).count 5 1 = some 2) ∧
    ((lPair a).unique 0 = false ∧ (lPair a).unique 1 = false) ∧
    (((lPair a).destruct 1).count 5 0 = some 1 ∧
      ((lPair a).destruct 1).unique 0 = true ∧
      (((lPair a).destruct 1).nodes 0).value = some a ∧
      ((lPair a).destruct 1).deletions = []) :=
  ⟨⟨rfl, rfl⟩, ⟨rfl, rfl⟩, rfl, rfl, rfl, rfl⟩

/-- Claim C7: detach() on any of the three handles of a 3-member cycle built
by copy-construction (both the chain build 0→1→2 and the star build with 1
and 2 both copied from 0) returns the original address, deletes nothing, and
leaves all three nodes as null singletons. -/
theorem C7_detach_three_members (a : Nat) :
    (∀ k, k < 3 →
      ((lTripleChain a).detach 5 k).map
          (fun r => (r.1, r.2.nodes 0, r.2.nodes 1, r.2.nodes 2, r.2.deletions)) =
        some (some a, ⟨0, 0, none⟩, ⟨1, 1, none⟩, ⟨2, 2, none⟩, [])) ∧
    (∀ k, k < 3 →
      ((lTripleStar a).detach 5 k).map
          (fun r => (r.1, r.2.nodes 0, r.2.nodes 1, r.2.nodes 2, r.2.deletions)) =
        some (some a, ⟨0, 0, none⟩, ⟨1, 1, none⟩, ⟨2, 2, none⟩, [])) := by
  constructor
  · intro k hk
    interval_cases k
    · exact rfl
    · exact rfl
    · exact rfl
  · intro k hk
    interval_cases k
    · exact rfl
    · exact rfl
    · exact rfl

/-- Claim C7 witness: the theorem applied at address 100 and start node 0. -/
theorem C7_detach_three_members_w :
    ((lTripleChain 100).detach 5 0).map
        (fun r => (r.1, r.2.nodes 0, r.2.nodes 1, r.2.nodes 2, r.2.deletions)) =
      some (some 100, ⟨0, 0, none⟩, ⟨1, 1, none⟩, ⟨2, 2, none⟩, []) :=
  (C7_detach_three_members 100).1 0 (by decide)

/-- Claim C8: unique() is true exactly when the node's Next link points to
itself; count() (run with at least one unit of fuel, which any closed walk
has) returns 1 exactly when the Next link points to itself; and a
default-constructed null handle has unique() true and count() 1. -/
theorem C8_unique_iff_count_one :
    (∀ (s : LState) (id : Nat), s.unique id = true ↔ (s.nodes id).Next = id) ∧
    (∀ (s : LState) (id fuel : Nat), 1 ≤ fuel →
      (s.count fuel id = some 1 ↔ (s.nodes id).Next = id)) ∧
    (∀ id : Nat, (LState.init.construct id none).unique id = true ∧
      (LState.init.construct id none).count 1 id = some 1) := by
  refine ⟨?_, ?_, ?_⟩
  · intro s id
    simp [LState.unique]
  · intro s id fuel hf
    obtain ⟨f, rfl⟩ : ∃ f, fuel = f + 1 := ⟨fuel - 1, by omega⟩
    rw [LState.count, LState.countAux]
    by_cases hn : (s.nodes id).Next = id
    · simp [hn]
    · simp [hn]
      intro h
      have := s.countAux_acc_le f ((s.nodes id).Next) id 2 1 h
      omega
  · intro id
    refine ⟨?_, ?_⟩
    · simp [LState.unique, LState.construct]
    · simp [LState.count, LState.countAux, LState.construct]

/-- Claim C8 witness: the count/unique equivalence applied to the concrete
two-handle state at node 0 with fuel 5. -/
theorem C8_unique_iff_count_one_w :
    (lPair 100).count 5 0 = some 1 ↔ ((lPair 100).nodes 0).Next = 0 :=
  C8_unique_iff_count_one.2.1 (lPair 100) 0 5 (by decide)

/-- Claim C3 (evaluated at the failing input): the same-type copy
constructor (auto_ptr.hpp:49-50) contains no duplicate() call.  Starting
from a pointee with internal count 1 held by handle 0, copy-constructing
handle 1 leaves the count at 1 with zero duplicate() invocations; destroying
the copy then releases the only reference, so the count drops to 0 and the
object is destroyed while the original handle still points at it — the
claim's "count equal to what it was before the copy" fails. -/
theorem C3_copy_ctor_never_duplicates :
    (((aOne.copyConstruct 1 0).heap 5).dupCalls = 0 ∧
      ((aOne.copyConstruct 1 0).heap 5).rc = 1 ∧
      (aOne.copyConstruct 1 0).handles 1 = some 5) ∧
    ((((aOne.copyConstruct 1 0).destruct 1).heap 5).rc = 0 ∧
      (((aOne.copyConstruct 1 0).destruct 1).heap 5).alive = false ∧
      ((aOne.copyConstruct 1 0).destruct 1).handles 0 = some 5) := by
  decide

/-- Claim C4 (evaluated at the failing input): dycast to an incompatible
type yields a null handle and dycast to a compatible type yields a non-null
handle on the same address with the source unchanged — but duplicate() is
never invoked (the count stays 1 and dupCalls stays 0, where the claim says
the count increases by one), because dycast builds its result with
basic_auto_ptr(pOther, true) and that constructor ignores the shared
flag. -/
theorem C4_dycast_compatible_no_duplicate :
    ((aDerived.dycast 1 0 CType.other).handles 1 = none) ∧
    ((aDerived.dycast 1 0 CType.base).handles 1 = some 5 ∧
      (aDerived.dycast 1 0 CType.base).handles 0 = some 5 ∧
      ((aDerived.dycast 1 0 CType.base).heap 5).dupCalls = 0 ∧
      ((aDerived.dycast 1 0 CType.base).heap 5).rc = 1) := by
  decide

/-- Claim C5 counterexample: the two distinct intrusive handles 0 and 1 both
hold address 5; copy-assigning handle 1 into handle 0 invokes release() once
and duplicate() once (the claim says neither is invoked), because
assign(const self_type&) guards only on handle-object identity
(`&other != this`), not on address equality. -/
theorem C5_cex_equal_address_assign_not_noop :
    ((aTwo.assignSelf 0 1).heap 5).relCalls = 1 ∧
    ((aTwo.assignSelf 0 1).heap 5).dupCalls = 1 := by
  decide

/-- Claim C5 (amended): self-assignment `h = h` is a no-op on both designs,
and assigning an already-equal address is a no-op for the circular-list
design and for the intrusive design's raw-pointer assignments; but the
intrusive same-type handle assignment checks only handle-object identity, so
assigning a *distinct* handle holding an equal non-null address invokes
release() and then duplicate() once each — get() and the resulting count are
unchanged (when the count was at least 1), but the calls do happen. -/
theorem C5_amended_equal_address_assign (s : AState) (t : LState)
    (h dst src ldst lsrc a : Nat) (p : Option Nat)
    (hp : s.handles h = p) (hv : (t.nodes lsrc).value = (t.nodes ldst).value)
    (hds : dst ≠ src) (hd : s.handles dst = some a) (hs : s.handles src = some a)
    (hrc : 1 ≤ (s.heap a).rc) :
    (s.assignSelf h h = s ∧ s.assignPtr h p = s ∧
      (∀ b : Bool, s.assignPtrShared h p b = s) ∧ t.assign ldst lsrc = t) ∧
    ((s.assignSelf dst src).handles dst = some a ∧
      ((s.assignSelf dst src).heap a).rc = (s.heap a).rc ∧
      ((s.assignSelf dst src).heap a).relCalls = (s.heap a).relCalls + 1 ∧
      ((s.assignSelf dst src).heap a).dupCalls = (s.heap a).dupCalls + 1) := by
  refine ⟨⟨?_, ?_, ?_, ?_⟩, ?_⟩
  · simp [AState.assignSelf]
  · simp [AState.assignPtr, hp]
  · intro b
    simp [AState.assignPtrShared, hp]
  · simp [LState.assign, hv]
  · refine ⟨?_, ?_, ?_, ?_⟩ <;>
      simp [AState.assignSelf, AState.relIf, AState.dupIf, AState.rel, AState.dup,
        hds, hd, hs] <;>
      omega

/-- Claim C5 witness: the amended theorem applied to concrete states — the
one-pointee/two-handle intrusive state and the two-node linked state. -/
theorem C5_amended_equal_address_assign_w :
    ((aTwo.assignSelf 0 0 = aTwo ∧ aTwo.assignPtr 0 (some 5) = aTwo ∧
      (∀ b : Bool, aTwo.assignPtrShared 0 (some 5) b = aTwo) ∧
      (lPair 100).assign 0 1 = lPair 100) ∧
    ((aTwo.assignSelf 0 1).handles 0 = some 5 ∧
      ((aTwo.assignSelf 0 1).heap 5).rc = (aTwo.heap 5).rc ∧
      ((aTwo.assignSelf 0 1).heap 5).relCalls = (aTwo.heap 5).relCalls + 1 ∧
      ((aTwo.assignSelf 0 1).heap 5).dupCalls = (aTwo.heap 5).dupCalls + 1)) :=
  C5_amended_equal_address_assign aTwo (lPair 100) 0 0 1 0 1 5 (some 5)
    (by decide) (by decide) (by decide) (by decide) (by decide) (by decide)

/-- Claim C9: the two-argument constructor basic_auto_ptr(pointer, bool)
ignores the shared flag entirely — for every pointer and flag it produces
the same state as basic_auto_ptr(pointer) and leaves the heap (hence every
duplicate counter) untouched — unlike reset(p, shared) = assign(p, shared),
which does invoke duplicate() once when shared is true and the non-null p is
actually adopted (differs from the currently held address). -/
theorem C9_ctor_shared_flag_ignored (s : AState) (h a : Nat)
    (hne : s.handles h ≠ some a) :
    (∀ (s' : AState) (g : Nat) (p : Option Nat) (b : Bool),
      s'.constructShared g p b = s'.construct g p ∧
        (s'.constructShared g p b).heap = s'.heap) ∧
    ((s.assignPtrShared h (some a) true).heap a).dupCalls = (s.heap a).dupCalls + 1 := by
  refine ⟨fun s' g p b => ⟨rfl, rfl⟩, ?_⟩
  rw [AState.assignPtrShared]
  rw [if_neg hne]
  cases hc : s.handles h with
  | none => simp [AState.relIf, AState.dupIf, AState.dup]
  | some b =>
    by_cases hab : a = b
    · subst hab
      simp [AState.relIf, AState.dupIf, AState.dup, AState.rel]
    · simp [AState.relIf, AState.dupIf, AState.dup, AState.rel, hab]

/-- Claim C9 witness: the theorem applied to the concrete state where handle
0 is null and address 5 is adopted with shared = true. -/
theorem C9_ctor_shared_flag_ignored_w :
    (∀ (s' : AState) (g : Nat) (p : Option Nat) (b : Bool),
      s'.constructShared g p b = s'.construct g p ∧
        (s'.constructShared g p b).heap = s'.heap) ∧
    ((AState.init.assignPtrShared 0 (some 5) true).heap 5).dupCalls =
      (AState.init.heap 5).dupCalls + 1 :=
  C9_ctor_shared_flag_ignored AState.init 0 5 (by decide)

/-- Claim C10: self-move-assignment is not a no-op: for a handle h holding a
non-null address, h = move(h) invokes release() exactly once on the pointee
(duplicate() not at all) and leaves the handle null, because
operator=(self_type&&) performs no self-identity check. -/
theorem C10_self_move_assign_releases (s : AState) (h a : Nat)
    (hh : s.handles h = some a) :
    (s.moveAssign h h).handles h = none ∧
    ((s.moveAssign h h).heap a).relCalls = (s.heap a).relCalls + 1 ∧
    ((s.moveAssign h h).heap a).dupCalls = (s.heap a).dupCalls := by
  simp [AState.moveAssign, AState.relIf, AState.rel, hh]

/-- Claim C10 witness: self-move-assignment on the concrete one-pointee
state. -/
theorem C10_self_move_assign_releases_w :
    (aOne.moveAssign 0 0).handles 0 = none ∧
    ((aOne.moveAssign 0 0).heap 5).relCalls = (aOne.heap 5).relCalls + 1 ∧
    ((aOne.moveAssign 0 0).heap 5).dupCalls = (aOne.heap 5).dupCalls :=
  C10_self_move_assign_releases aOne 0 5 (by decide)
